import Mathlib

/-!
# Verification of the CAM Turbonomic Action Server scale handler

Shallow embedding of `src/actions/IA_scale.py`: the script reads one JSON
action payload, validates it, then performs up to four REST calls
(authenticate, resolve tenant, update service instance, poll status) and
returns an exit code.

Remote HTTP responses are modelled by a `World` value fixing the status
codes and bodies the four call sites would observe; `main` returns the
outcome (normal exit code or an uncaught Python exception) together with
the list of network calls it performed, in order.
-/

namespace IAScale

/-- Module constant `IN_PROGRESS = 'In Progress'`. -/
def IN_PROGRESS : String := "In Progress"

/-- Module constant `ACTIVE = 'Active'`. -/
def ACTIVE : String := "Active"

/-- One entry of `targetSE.entityProperties`: a dict with keys
`namespace`, `name`, `value` (all strings). -/
structure EntityProperty where
  namespace_ : String
  name : String
  value : String
deriving DecidableEq, Repr

/-- The `targetSE` object of an action item. `entityType` is read with
`.get('entityType')`, so it may be absent; `entityProperties` is indexed
directly. -/
structure TargetSE where
  entityType : Option String
  entityProperties : List EntityProperty
deriving DecidableEq, Repr

/-- One element of the `actionItem` list. `targetSE` is read with
`.get('targetSE', {})`, so it may be absent; `actionType` and
`newSE.id` are indexed directly. -/
structure ActionItem where
  actionType : String
  targetSE : Option TargetSE
  newSE_id : String
deriving DecidableEq, Repr

/-- The JSON document read from standard input. -/
structure ActionInput where
  actionType : String
  actionItem : List ActionItem
deriving DecidableEq, Repr

/-- Model of the remote management service: the HTTP status codes (and the
bodies needed by the script) that each of the four call sites would see.
`poll` gives the result of the k-th `get_service_instance_status` call:
`none` models a non-200 detail response (the helper then returns Python
`None`), `some s` a 200 response whose body has `Status` field `s`. -/
structure World where
  authStatus : Nat
  authToken : String
  tenantStatus : Nat
  tenantId : String
  updateStatus : Nat
  poll : Nat → Option String

/-- A network call performed by the script, with the request data the
claims talk about. -/
inductive NetCall where
  | auth : NetCall
  | tenant : NetCall
  | update (instance_type_parameter new_instance_type service_instance_id : String) : NetCall
  | detail (service_instance_id : String) : NetCall
deriving DecidableEq, Repr

/-- Holds exactly on status-polling (service-instance detail) calls. -/
def isDetail : NetCall → Bool
  | .detail _ => true
  | _ => false

/-- An uncaught Python exception raised by `main`. -/
inductive PyErr where
  | typeError : PyErr
  | indexError : PyErr
  | nameError : PyErr
deriving DecidableEq, Repr

/-- How the process ends: `main` returns an exit code, or an exception
escapes `main` (the interpreter then terminates abnormally). -/
inductive MainResult where
  | exit (code : Nat) : MainResult
  | crash (e : PyErr) : MainResult
deriving DecidableEq, Repr

/-- Function `get_access_token` (lines 57-70): POST to the identity-token endpoint;
on 200 return the `access_token` field, else log and return `None`. -/
def get_access_token (w : World) : Option String :=
  if w.authStatus = 200 then some w.authToken else none

/-- Function `get_tenant_id` (lines 73-90): with a token, GET the on-prem tenant;
on 200 return its `id` field, else log and return `None`. Makes no call
when `access_token` is `None`. -/
def get_tenant_id (w : World) (access_token : Option String) : Option String :=
  match access_token with
  | none => none
  | some _ => if w.tenantStatus = 200 then some w.tenantId else none

/-- Function `update_service_instance` (lines 92-113): POST the update body and
return the response's HTTP status code. -/
def update_service_instance (w : World) (_access_token _tenant_id _service_instance_id
    _instance_type_parameter _new_instance_type : String) : Nat :=
  w.updateStatus

/-- Function `get_service_instance_status` (lines 137-154) at its k-th invocation:
`none` when the detail call is non-200, else the body's `Status` field. -/
def get_service_instance_status (w : World) (k : Nat) : Option String :=
  w.poll k

/-- The tag scan over `targetSE.entityProperties` (lines 187-202): walk the
list updating the three variables, breaking as soon as all three are set.
Returns `(instance_type_parameter, service_instance_id, service_instance_name)`. -/
def scan_vctags : List EntityProperty → Option String → Option String → Option String →
    Option String × Option String × Option String
  | [], itp, sid, nam => (itp, sid, nam)
  | p :: rest, itp, sid, nam =>
    let sid' := if p.namespace_ = "VCTAGS" ∧ p.name = "service_identifier" then some p.value else sid
    let nam' := if p.namespace_ = "VCTAGS" ∧ p.name = "service_name" then some p.value else nam
    let itp' := if p.namespace_ = "VCTAGS" ∧ p.name = "turbonomic_instance_type" then some p.value else itp
    if itp'.isSome ∧ sid'.isSome ∧ nam'.isSome then (itp', sid', nam')
    else scan_vctags rest itp' sid' nam'

/-- The scan over `actionItem` for the first entry with
`actionType == 'SCALE'` (lines 169-174). -/
def findScaleAction (items : List ActionItem) : Option ActionItem :=
  items.find? (fun item => item.actionType == "SCALE")

/-- Helper for `pySplit`: scan the character list left to right, emitting
a chunk at each leftmost non-overlapping occurrence of `sep`. `fuel`
only makes the recursion structural; any `fuel ≥` the list length reaches
the fuel case never. -/
def pySplitAux (sep : List Char) : Nat → List Char → List Char → List (List Char)
  | _, [], acc => [acc.reverse]
  | 0, _, acc => [acc.reverse]
  | fuel + 1, c :: rest, acc =>
    if sep.isPrefixOf (c :: rest) then
      acc.reverse :: pySplitAux sep fuel (List.drop sep.length (c :: rest)) []
    else
      pySplitAux sep fuel rest (c :: acc)

/-- Python's `str.split(sep)` for a non-empty separator (the script only
calls it as `split('::')`): split on every leftmost non-overlapping
occurrence of `sep`; no occurrence yields the one-element list `[s]`. -/
def pySplit (s sep : String) : List String :=
  (pySplitAux sep.toList (s.toList.length + 1) s.toList []).map String.mk

/-- The wait loop (lines 236-240): while the status is `'In Progress'` and
`time_waited <= update_service_timeout`, sleep, add 10 to `time_waited` and
re-fetch the status. `k` counts the `get_service_instance_status` calls
made so far (the call index of the next fetch). Returns the final status
and the total number of detail calls. -/
def pollLoop (poll : Nat → Option String) (timeout : Int) :
    Option String → Int → Nat → Option String × Nat
  | status, time_waited, k =>
    if h : status = some IN_PROGRESS ∧ time_waited ≤ timeout then
      pollLoop poll timeout (poll k) (time_waited + 10) (k + 1)
    else (status, k)
termination_by status time_waited k => (timeout + 10 - time_waited).toNat
decreasing_by
  simp_wf
  omega

/-- Function `main` (lines 157-253): validate the payload, then authenticate,
resolve the tenant, submit the update and poll, producing the outcome and
the ordered list of network calls. The still-in-progress branch after the
loop evaluates the undefined name `timeout` (line 246), which raises
`NameError`. -/
def main (update_service_timeout : Int) (inp : ActionInput) (w : World) :
    MainResult × List NetCall :=
  if inp.actionType ≠ "SCALE" then (.exit 1, [])
  else
    match findScaleAction inp.actionItem with
    | none => (.exit 1, [])
    | some scale_action =>
      match scale_action.targetSE with
      | none => (.crash .typeError, [])
      | some tse =>
        match tse.entityType with
        | none => (.crash .typeError, [])
        | some target_se =>
          if target_se ≠ "VIRTUAL_MACHINE" then (.exit 1, [])
          else
            let scanned := scan_vctags tse.entityProperties none none none
            match scanned.2.1 with
            | none => (.exit 1, [])
            | some service_instance_id =>
              let instance_type_parameter := scanned.1.getD "instance_type"
              let segs := pySplit scale_action.newSE_id "::"
              if hlen : 2 < segs.length then
                let new_instance_type := segs[2]
                match get_access_token w with
                | none => (.exit 1, [.auth])
                | some access_token =>
                  match get_tenant_id w (some access_token) with
                  | none => (.exit 1, [.auth, .tenant])
                  | some tenant_id =>
                    let status_code := update_service_instance w access_token tenant_id
                      service_instance_id instance_type_parameter new_instance_type
                    let calls0 : List NetCall :=
                      [.auth, .tenant,
                       .update instance_type_parameter new_instance_type service_instance_id]
                    if status_code = 200 then
                      let s0 := get_service_instance_status w 0
                      let looped := pollLoop w.poll update_service_timeout s0 30 1
                      let calls := calls0 ++ List.replicate looped.2 (.detail service_instance_id)
                      if looped.1 = some IN_PROGRESS then (.crash .nameError, calls)
                      else if looped.1 = some ACTIVE then (.exit 0, calls)
                      else (.exit 1, calls)
                    else (.exit 1, calls0)
              else (.crash .indexError, [])

/-! ## Helper lemmas -/

theorem pollLoop_stop (poll : Nat → Option String) (timeout : Int) (status : Option String)
    (time_waited : Int) (k : Nat) (h : ¬(status = some IN_PROGRESS ∧ time_waited ≤ timeout)) :
    pollLoop poll timeout status time_waited k = (status, k) := by
  rw [pollLoop, dif_neg h]

theorem pollLoop_step (poll : Nat → Option String) (timeout : Int) (status : Option String)
    (time_waited : Int) (k : Nat) (h1 : status = some IN_PROGRESS) (h2 : time_waited ≤ timeout) :
    pollLoop poll timeout status time_waited k =
      pollLoop poll timeout (poll k) (time_waited + 10) (k + 1) := by
  rw [pollLoop, dif_pos ⟨h1, h2⟩]

/-- Bound on the number of detail calls the wait loop makes: starting from
`time_waited = tw` with `k` calls already made, at most
`(timeout - tw).toNat / 10 + 1` further calls happen, and none if
`tw > timeout`. -/
theorem pollLoop_count_le (poll : Nat → Option String) (timeout : Int) :
    ∀ (m : Nat) (s : Option String) (tw : Int) (k : Nat), (timeout + 10 - tw).toNat ≤ m →
    (pollLoop poll timeout s tw k).2 ≤
      k + (if tw ≤ timeout then (timeout - tw).toNat / 10 + 1 else 0) := by
  intro m
  induction m with
  | zero =>
    intro s tw k hm
    rw [pollLoop_stop _ _ _ _ _ (by intro hcon; exact absurd hcon.2 (by omega))]
    have : ¬ tw ≤ timeout := by omega
    simp [this]
  | succ n ih =>
    intro s tw k hm
    by_cases h : s = some IN_PROGRESS ∧ tw ≤ timeout
    · rw [pollLoop_step _ _ _ _ _ h.1 h.2]
      have hrec := ih (poll k) (tw + 10) (k + 1) (by omega)
      have h2 := h.2
      rw [if_pos h2]
      by_cases h3 : tw + 10 ≤ timeout
      · rw [if_pos h3] at hrec
        omega
      · rw [if_neg h3] at hrec
        omega
    · rw [pollLoop_stop _ _ _ _ _ h]
      dsimp only
      split <;> omega

/-- If no property of the list is a `VCTAGS`/`service_identifier` tag, the
scan leaves `service_instance_id` at `None`. -/
theorem scan_vctags_sid_none :
    ∀ (props : List EntityProperty) (itp nam : Option String),
    (∀ p ∈ props, ¬(p.namespace_ = "VCTAGS" ∧ p.name = "service_identifier")) →
    (scan_vctags props itp none nam).2.1 = none := by
  intro props
  induction props with
  | nil => intro itp nam _; rfl
  | cons p rest ih =>
    intro itp nam h
    have hp := h p (List.mem_cons_self p rest)
    simp only [scan_vctags, if_neg hp, Option.isSome_none, Bool.false_eq_true, and_false,
      false_and, and_self, if_false]
    exact ih _ _ (fun q hq => h q (List.mem_cons_of_mem p hq))

/-- If no property of the list is a `VCTAGS`/`turbonomic_instance_type`
tag, the scan leaves `instance_type_parameter` at `None`. -/
theorem scan_vctags_itp_none :
    ∀ (props : List EntityProperty) (sid nam : Option String),
    (∀ p ∈ props, ¬(p.namespace_ = "VCTAGS" ∧ p.name = "turbonomic_instance_type")) →
    (scan_vctags props none sid nam).1 = none := by
  intro props
  induction props with
  | nil => intro sid nam _; rfl
  | cons p rest ih =>
    intro sid nam h
    have hp := h p (List.mem_cons_self p rest)
    simp only [scan_vctags, if_neg hp, Option.isSome_none, Bool.false_eq_true, and_false,
      false_and, and_self, if_false]
    exact ih _ _ (fun q hq => h q (List.mem_cons_of_mem p hq))

/-- The item scan picks the first entry whose `actionType` is `'SCALE'`. -/
theorem findScaleAction_append (pre post : List ActionItem) (a : ActionItem)
    (hpre : ∀ b ∈ pre, b.actionType ≠ "SCALE") (ha : a.actionType = "SCALE") :
    findScaleAction (pre ++ a :: post) = some a := by
  induction pre with
  | nil =>
    simp [findScaleAction, List.find?_cons, ha]
  | cons b rest ih =>
    have hb : ¬ b.actionType = "SCALE" := hpre b (List.mem_cons_self b rest)
    have hb' : (b.actionType == "SCALE") = false := by simpa using hb
    simp only [List.cons_append, findScaleAction, List.find?_cons, hb']
    exact ih (fun q hq => hpre q (List.mem_cons_of_mem b hq))

/-! ## Concrete fixtures used by witnesses -/

/-- A world where authentication, tenant resolution and the update all
return 200 and every status fetch returns `Active`. -/
def wActive : World :=
  { authStatus := 200, authToken := "tok", tenantStatus := 200, tenantId := "t1",
    updateStatus := 200, poll := fun _ => some ACTIVE }

/-- Like `wActive` but the status never leaves `In Progress`. -/
def wPending : World :=
  { authStatus := 200, authToken := "tok", tenantStatus := 200, tenantId := "t1",
    updateStatus := 200, poll := fun _ => some IN_PROGRESS }

/-- Like `wActive` but the update call returns 500. -/
def wBadUpdate : World :=
  { authStatus := 200, authToken := "tok", tenantStatus := 200, tenantId := "t1",
    updateStatus := 500, poll := fun _ => some ACTIVE }

/-- Like `wActive` but authentication returns 401. -/
def wBadAuth : World :=
  { authStatus := 401, authToken := "tok", tenantStatus := 200, tenantId := "t1",
    updateStatus := 200, poll := fun _ => some ACTIVE }

/-- Tag fixture: a `VCTAGS`/`service_identifier` entry. -/
def sidProp : EntityProperty :=
  { namespace_ := "VCTAGS", name := "service_identifier", value := "abc123" }

/-- A well-formed SCALE action item carrying only the service-identifier tag. -/
def scaleItem : ActionItem :=
  { actionType := "SCALE",
    targetSE := some { entityType := some "VIRTUAL_MACHINE", entityProperties := [sidProp] },
    newSE_id := "aws::t2::m1.large" }

/-- A well-formed input whose only action item is `scaleItem`. -/
def scaleInput : ActionInput := { actionType := "SCALE", actionItem := [scaleItem] }

/-- Like `scaleItem` but `newSE.id` has only two `::`-separated segments. -/
def shortIdItem : ActionItem :=
  { actionType := "SCALE",
    targetSE := some { entityType := some "VIRTUAL_MACHINE", entityProperties := [sidProp] },
    newSE_id := "aws::t2" }

/-- Input whose only action item is `shortIdItem`. -/
def shortIdInput : ActionInput := { actionType := "SCALE", actionItem := [shortIdItem] }

/-- A non-SCALE action item. -/
def moveItem : ActionItem :=
  { actionType := "MOVE",
    targetSE := some { entityType := some "VIRTUAL_MACHINE", entityProperties := [] },
    newSE_id := "aws::t2::m1.small" }

/-! ## Claims -/

/-- C4: for every input whose top-level `actionType` is not `"SCALE"`, the
program exits with status 1 without making any network call. -/
theorem C4_non_scale_input_rejected (update_service_timeout : Int) (inp : ActionInput)
    (w : World) (h : inp.actionType ≠ "SCALE") :
    main update_service_timeout inp w = (.exit 1, []) := by
  unfold main
  rw [if_pos h]

/-- Witness for C4 at the concrete input with `actionType = "MOVE"`. -/
theorem C4_witness :
    ("MOVE" : String) ≠ "SCALE" ∧
      main 600 { actionType := "MOVE", actionItem := [] } wActive = (.exit 1, []) :=
  ⟨by decide, C4_non_scale_input_rejected 600 _ wActive (by decide)⟩

/-- C6: the first action item with `actionType = "SCALE"` is the one
processed — every earlier (non-SCALE) and later item is ignored, so `main`
behaves as if the input held only that item — and when no item has
`actionType = "SCALE"` the program exits with status 1 (making no network
call). -/
theorem C6_first_scale_item_processed (t : Int) (w : World) (at0 : String)
    (pre post : List ActionItem) (a : ActionItem) :
    ((∀ b ∈ pre, b.actionType ≠ "SCALE") → a.actionType = "SCALE" →
      main t { actionType := at0, actionItem := pre ++ a :: post } w =
        main t { actionType := at0, actionItem := [a] } w) ∧
    (∀ inp : ActionInput, findScaleAction inp.actionItem = none →
      main t inp w = (.exit 1, [])) := by
  constructor
  · intro hpre ha
    have h1 : findScaleAction (pre ++ a :: post) = some a :=
      findScaleAction_append pre post a hpre ha
    have h2 : findScaleAction [a] = some a :=
      findScaleAction_append [] [] a (fun b hb => absurd hb (List.not_mem_nil b)) ha
    unfold main
    rw [show ({ actionType := at0, actionItem := pre ++ a :: post } : ActionInput).actionItem
        = pre ++ a :: post from rfl, h1]
    rw [show ({ actionType := at0, actionItem := [a] } : ActionInput).actionItem
        = [a] from rfl]
    rw [show findScaleAction [a] = some a from h2]
  · intro inp hnone
    unfold main
    by_cases hat : inp.actionType ≠ "SCALE"
    · rw [if_pos hat]
    · rw [if_neg hat, hnone]

/-- Witness for C6: a leading MOVE item and a trailing item are ignored,
and an input with no SCALE item exits 1. -/
theorem C6_witness :
    (main 600 { actionType := "SCALE", actionItem := [moveItem, scaleItem, shortIdItem] } wActive =
      main 600 { actionType := "SCALE", actionItem := [scaleItem] } wActive) ∧
    main 600 { actionType := "SCALE", actionItem := [moveItem] } wActive = (.exit 1, []) :=
  ⟨(C6_first_scale_item_processed 600 wActive "SCALE" [moveItem] [shortIdItem] scaleItem).1
      (by decide) (by decide),
   (C6_first_scale_item_processed 600 wActive "SCALE" [] [] scaleItem).2
      { actionType := "SCALE", actionItem := [moveItem] } (by decide)⟩

/-- C9: an input that passes all payload validation but whose `newSE.id`
has fewer than three `::`-separated segments makes the instance-type
extraction index out of range: `main` raises `IndexError` (no exit-1 path)
before any network call is made. -/
theorem C9_short_newse_id_crashes (t : Int) (inp : ActionInput) (w : World) (a : ActionItem)
    (tse : TargetSE) (itp0 nam0 : Option String) (sid : String)
    (h1 : inp.actionType = "SCALE")
    (h2 : findScaleAction inp.actionItem = some a)
    (h3 : a.targetSE = some tse)
    (h4 : tse.entityType = some "VIRTUAL_MACHINE")
    (h5 : scan_vctags tse.entityProperties none none none = (itp0, some sid, nam0))
    (h6 : (pySplit a.newSE_id "::").length < 3) :
    main t inp w = (.crash .indexError, []) := by
  unfold main
  rw [h1, if_neg (by decide : ¬("SCALE" : String) ≠ "SCALE"), h2]
  simp only [h3, h4, h5]
  rw [if_neg (by decide : ¬("VIRTUAL_MACHINE" : String) ≠ "VIRTUAL_MACHINE")]
  rw [dif_neg (by omega : ¬ 2 < (pySplit a.newSE_id "::").length)]

/-- Witness for C9 at `shortIdInput` (`newSE.id = "aws::t2"`). -/
theorem C9_witness :
    shortIdInput.actionType = "SCALE" ∧
    findScaleAction shortIdInput.actionItem = some shortIdItem ∧
    (pySplit shortIdItem.newSE_id "::").length < 3 ∧
    main 600 shortIdInput wActive = (.crash .indexError, []) :=
  ⟨by decide, by decide, by decide,
   C9_short_newse_id_crashes 600 shortIdInput wActive shortIdItem
     { entityType := some "VIRTUAL_MACHINE", entityProperties := [sidProp] }
     none none "abc123" rfl (by decide) rfl rfl (by decide) (by decide)⟩

/-- C5: when the matched SCALE item's `targetSE.entityProperties` holds no
`VCTAGS`/`service_identifier` entry, the program exits with status 1
before any network call (in particular before tenant resolution). -/
theorem C5_missing_service_identifier_rejected (t : Int) (inp : ActionInput) (w : World)
    (a : ActionItem) (tse : TargetSE) (et : String)
    (h1 : inp.actionType = "SCALE")
    (h2 : findScaleAction inp.actionItem = some a)
    (h3 : a.targetSE = some tse)
    (h4 : tse.entityType = some et)
    (h5 : ∀ p ∈ tse.entityProperties,
      ¬(p.namespace_ = "VCTAGS" ∧ p.name = "service_identifier")) :
    main t inp w = (.exit 1, []) := by
  unfold main
  rw [h1, if_neg (by decide : ¬("SCALE" : String) ≠ "SCALE"), h2]
  simp only [h3, h4]
  by_cases hvm : et ≠ "VIRTUAL_MACHINE"
  · rw [if_pos hvm]
  · rw [if_neg hvm]
    simp only [scan_vctags_sid_none tse.entityProperties none none h5]

/-- Witness for C5: a SCALE item whose tag list is empty. -/
theorem C5_witness :
    (∀ p ∈ ([] : List EntityProperty),
      ¬(p.namespace_ = "VCTAGS" ∧ p.name = "service_identifier")) ∧
    main 600
      { actionType := "SCALE",
        actionItem := [{ actionType := "SCALE",
                         targetSE := some { entityType := some "VIRTUAL_MACHINE",
                                            entityProperties := [] },
                         newSE_id := "a::b::c" }] } wActive = (.exit 1, []) :=
  ⟨by simp, C5_missing_service_identifier_rejected 600 _ wActive
    { actionType := "SCALE",
      targetSE := some { entityType := some "VIRTUAL_MACHINE", entityProperties := [] },
      newSE_id := "a::b::c" }
    { entityType := some "VIRTUAL_MACHINE", entityProperties := [] }
    "VIRTUAL_MACHINE" rfl (by decide) rfl rfl (by simp)⟩

/-- C7: when the matched SCALE item's tags hold no
`VCTAGS`/`turbonomic_instance_type` entry, any update request the program
sends uses exactly the parameter name `"instance_type"`. -/
theorem C7_instance_type_param_default (t : Int) (inp : ActionInput) (w : World)
    (a : ActionItem) (tse : TargetSE)
    (h1 : inp.actionType = "SCALE")
    (h2 : findScaleAction inp.actionItem = some a)
    (h3 : a.targetSE = some tse)
    (h4 : tse.entityType = some "VIRTUAL_MACHINE")
    (h5 : ∀ p ∈ tse.entityProperties,
      ¬(p.namespace_ = "VCTAGS" ∧ p.name = "turbonomic_instance_type")) :
    ∀ pn nt si, NetCall.update pn nt si ∈ (main t inp w).2 → pn = "instance_type" := by
  intro pn nt si hmem
  have hitp := scan_vctags_itp_none tse.entityProperties none none h5
  unfold main at hmem
  rw [h1, if_neg (by decide : ¬("SCALE" : String) ≠ "SCALE"), h2] at hmem
  simp only [h3, h4, hitp, Option.getD_none,
    if_neg (by decide : ¬("VIRTUAL_MACHINE" : String) ≠ "VIRTUAL_MACHINE")] at hmem
  split at hmem
  · simp at hmem
  · split at hmem
    · split at hmem
      · simp at hmem
      · split at hmem
        · simp at hmem
        · split at hmem
          · split at hmem
            · simp at hmem
              exact hmem.1
            · split at hmem
              · simp at hmem
                exact hmem.1
              · simp at hmem
                exact hmem.1
          · simp at hmem
            exact hmem.1
    · simp at hmem

/-- Witness for C7: a SCALE item carrying only the service-identifier tag;
the update call in the trace uses parameter name `"instance_type"`. -/
theorem C7_witness :
    (∀ p ∈ [sidProp],
      ¬(p.namespace_ = "VCTAGS" ∧ p.name = "turbonomic_instance_type")) ∧
    (∀ pn nt si, NetCall.update pn nt si ∈ (main 600 scaleInput wActive).2 →
      pn = "instance_type") :=
  ⟨by decide,
   C7_instance_type_param_default 600 scaleInput wActive scaleItem
     { entityType := some "VIRTUAL_MACHINE", entityProperties := [sidProp] }
     rfl (by decide) rfl rfl (by decide)⟩

/-- C8: when the update call returns 200 and the first status fetch
already returns `Active`, the program exits with status 0 and the wait
loop body runs zero times: exactly one status-polling call is made. -/
theorem C8_immediate_active_exits_zero (t : Int) (inp : ActionInput) (w : World)
    (a : ActionItem) (tse : TargetSE) (itp0 nam0 : Option String) (sid : String)
    (h1 : inp.actionType = "SCALE")
    (h2 : findScaleAction inp.actionItem = some a)
    (h3 : a.targetSE = some tse)
    (h4 : tse.entityType = some "VIRTUAL_MACHINE")
    (h5 : scan_vctags tse.entityProperties none none none = (itp0, some sid, nam0))
    (h6 : 2 < (pySplit a.newSE_id "::").length)
    (h7 : w.authStatus = 200) (h8 : w.tenantStatus = 200) (h9 : w.updateStatus = 200)
    (h10 : w.poll 0 = some ACTIVE) :
    (main t inp w).1 = .exit 0 ∧ (main t inp w).2.countP isDetail = 1 := by
  have hstop : pollLoop w.poll t (some ACTIVE) 30 1 = (some ACTIVE, 1) :=
    pollLoop_stop _ _ _ _ _ (by intro hcon; exact absurd hcon.1 (by decide))
  unfold main
  rw [h1, if_neg (by decide : ¬("SCALE" : String) ≠ "SCALE"), h2]
  simp only [h3, h4, h5,
    if_neg (by decide : ¬("VIRTUAL_MACHINE" : String) ≠ "VIRTUAL_MACHINE")]
  rw [dif_pos h6]
  simp only [get_access_token, get_tenant_id, update_service_instance,
    get_service_instance_status, h7, h8, h9, h10, if_pos rfl, hstop]
  simp [ACTIVE, IN_PROGRESS, isDetail, List.countP_cons, List.countP_append]

/-- Witness for C8 at the concrete always-Active world. -/
theorem C8_witness :
    wActive.updateStatus = 200 ∧ wActive.poll 0 = some ACTIVE ∧
    (main 600 scaleInput wActive).1 = .exit 0 ∧
    (main 600 scaleInput wActive).2.countP isDetail = 1 :=
  ⟨by decide, by decide,
   (C8_immediate_active_exits_zero 600 scaleInput wActive scaleItem
     { entityType := some "VIRTUAL_MACHINE", entityProperties := [sidProp] }
     none none "abc123" rfl (by decide) rfl rfl (by decide) (by decide)
     rfl rfl rfl rfl).1,
   (C8_immediate_active_exits_zero 600 scaleInput wActive scaleItem
     { entityType := some "VIRTUAL_MACHINE", entityProperties := [sidProp] }
     none none "abc123" rfl (by decide) rfl rfl (by decide) (by decide)
     rfl rfl rfl rfl).2⟩

/-- C2: if the update call is made and returns a non-200 status, the
program exits with status 1 and makes no status-polling (detail) call. -/
theorem C2_update_failure_skips_polling (t : Int) (inp : ActionInput) (w : World)
    (hupd : w.updateStatus ≠ 200)
    (hex : ∃ pn nt si, NetCall.update pn nt si ∈ (main t inp w).2) :
    (main t inp w).1 = .exit 1 ∧ ∀ si, NetCall.detail si ∉ (main t inp w).2 := by
  obtain ⟨pn, nt, si, hmem⟩ := hex
  rcases hpair : main t inp w with ⟨res, calls⟩
  rw [hpair] at hmem
  dsimp only at hmem ⊢
  unfold main at hpair
  simp only [get_access_token, get_tenant_id, update_service_instance,
    get_service_instance_status] at hpair
  repeat' split at hpair
  all_goals injection hpair with hres hcalls
  all_goals (subst hres; subst hcalls)
  all_goals
    first
      | exact absurd ‹w.updateStatus = 200› hupd
      | exact ⟨rfl, by simp⟩
      | simp at hmem

/-- Witness for C2: the update returns 500 on a well-formed input; the
update call is in the trace, the result is exit 1 with no detail call. -/
theorem C2_witness :
    wBadUpdate.updateStatus ≠ 200 ∧
    ((main 600 scaleInput wBadUpdate).1 = .exit 1 ∧
      ∀ si, NetCall.detail si ∉ (main 600 scaleInput wBadUpdate).2) :=
  ⟨by decide,
   C2_update_failure_skips_polling 600 scaleInput wBadUpdate (by decide)
     ⟨"instance_type", "m1.large", "abc123", by
        simp [main, scaleInput, scaleItem, sidProp, wBadUpdate, scan_vctags, findScaleAction,
          get_access_token, get_tenant_id, update_service_instance, pySplit, pySplitAux]⟩⟩

/-- C3: if the authentication call is made and returns a non-200 status,
no access token is obtained, the tenant and update calls are never made,
and the program exits with status 1. -/
theorem C3_auth_failure_stops_run (t : Int) (inp : ActionInput) (w : World)
    (hauth : w.authStatus ≠ 200)
    (hex : NetCall.auth ∈ (main t inp w).2) :
    get_access_token w = none ∧ (main t inp w).1 = .exit 1 ∧
      NetCall.tenant ∉ (main t inp w).2 ∧
      ∀ pn nt si, NetCall.update pn nt si ∉ (main t inp w).2 := by
  have hg : get_access_token w = none := by
    unfold get_access_token
    rw [if_neg hauth]
  refine ⟨hg, ?_⟩
  rcases hpair : main t inp w with ⟨res, calls⟩
  rw [hpair] at hex
  dsimp only at hex ⊢
  unfold main at hpair
  simp only [hg] at hpair
  repeat' split at hpair
  all_goals injection hpair with hres hcalls
  all_goals (subst hres; subst hcalls)
  all_goals
    first
      | exact ⟨rfl, by simp, by simp⟩
      | simp at hex

/-- Witness for C3: authentication returns 401 on a well-formed input. -/
theorem C3_witness :
    wBadAuth.authStatus ≠ 200 ∧
    (get_access_token wBadAuth = none ∧ (main 600 scaleInput wBadAuth).1 = .exit 1 ∧
      NetCall.tenant ∉ (main 600 scaleInput wBadAuth).2 ∧
      ∀ pn nt si, NetCall.update pn nt si ∉ (main 600 scaleInput wBadAuth).2) :=
  ⟨by decide,
   C3_auth_failure_stops_run 600 scaleInput wBadAuth (by decide)
     (by simp [main, scaleInput, scaleItem, sidProp, wBadAuth, scan_vctags, findScaleAction,
        get_access_token, get_tenant_id, update_service_instance, pySplit, pySplitAux])⟩

/-- C1 (exercising the code bug): a concrete run where the update returns
200 and the status is still `In Progress` when the timeout (30s) is
exceeded. The script reaches the still-pending branch, whose log call
evaluates the undefined name `timeout` (line 246) and so raises
`NameError`: the process terminates abnormally (the interpreter exits 1
with a traceback) instead of logging a still-pending message and
returning exit status 0. -/
theorem C1_timeout_still_pending_raises_nameerror :
    main 30 scaleInput wPending =
      (.crash .nameError,
       [.auth, .tenant, .update "instance_type" "m1.large" "abc123",
        .detail "abc123", .detail "abc123"]) := by
  have h1 : pollLoop (fun _ => some "In Progress") 30 (some "In Progress") 30 1 =
      (some "In Progress", 2) := by
    rw [pollLoop_step (fun _ => some "In Progress") 30 (some "In Progress") 30 1 rfl
      (by decide)]
    rw [pollLoop_stop (fun _ => some "In Progress") 30 (some "In Progress")
      (30 + 10) (1 + 1) (by decide)]
  simp [main, scaleInput, scaleItem, sidProp, wPending, scan_vctags, findScaleAction,
    get_access_token, get_tenant_id, update_service_instance, get_service_instance_status,
    pySplit, pySplitAux, h1, IN_PROGRESS, ACTIVE]

/-- C10: the wait loop always terminates; counting detail fetches, the
loop body runs at most `(T - 30) / 10 + 1` times when the timeout `T` is
at least 30, and zero times when `T < 30` (the initial fetch is call
number 1, so the total count is body iterations plus one). -/
theorem C10_pollLoop_bound (poll : Nat → Option String) (T : Int) (s0 : Option String) :
    (30 ≤ T → (pollLoop poll T s0 30 1).2 - 1 ≤ (T - 30).toNat / 10 + 1) ∧
    (T < 30 → (pollLoop poll T s0 30 1).2 = 1) := by
  constructor
  · intro hT
    have h := pollLoop_count_le poll T (T + 10 - 30).toNat s0 30 1 (le_refl _)
    rw [if_pos hT] at h
    omega
  · intro hT
    rw [pollLoop_stop _ _ _ _ _ (by intro hcon; exact absurd hcon.2 (by omega))]

/-- Witness for C10 with a status that never leaves `In Progress`:
timeout 65 bounds the body at 4 iterations, timeout 20 at zero. -/
theorem C10_witness :
    ((pollLoop (fun _ => some IN_PROGRESS) 65 (some IN_PROGRESS) 30 1).2 - 1 ≤
      ((65 : Int) - 30).toNat / 10 + 1) ∧
    (pollLoop (fun _ => some IN_PROGRESS) 20 (some IN_PROGRESS) 30 1).2 = 1 :=
  ⟨(C10_pollLoop_bound (fun _ => some IN_PROGRESS) 65 (some IN_PROGRESS)).1 (by decide),
   (C10_pollLoop_bound (fun _ => some IN_PROGRESS) 20 (some IN_PROGRESS)).2 (by decide)⟩

end IAScale
